import Mathlib

/-!
Shallow embedding of `get_bucket_list.py`, a one-shot reporting script that
lists the S3 buckets of an account, enriches each bucket with owner, account
aliases, region and analytics-configuration data, and writes the result to
`output.csv`.  Network calls are modelled by a `MockEnv` of mocked API
responses; a `ClientError` raised by a call is an `Except.error`.
-/

/-- A botocore `ClientError`, identified by its message. -/
abbrev ClientError := String

/-- Mocked per-bucket API responses.  `aclResp` is the owner ID returned by
`bucket.Acl().owner['ID']`; `locationResp` is the raw `LocationConstraint`
value of `get_bucket_location` (`none` models Python `None`); `analyticsResp`
is `some l` when the `list_bucket_analytics_configurations` response contains
the key `AnalyticsConfigurationList` with list `l`, and `none` when the key is
absent. -/
structure Bucket where
  name : String
  aclResp : Except ClientError String
  locationResp : Except ClientError (Option String)
  analyticsResp : Except ClientError (Option (List String))

/-- Mocked account-level API responses: the bucket listing
(`boto3.resource('s3').buckets.all()`) and the pages yielded by the
`list_account_aliases` paginator (each page carries its `AccountAliases`
list). -/
structure MockEnv where
  listBucketsResp : Except ClientError (List Bucket)
  aliasPagesResp : Except ClientError (List (List String))

/-- Python truthiness of a string: non-empty strings are truthy. -/
def pyTruthyStr (s : String) : Bool :=
  s != ""

/-- Python truthiness of the value returned by `is_analytics_enabled`
(`True` or `None`). -/
def pyTruthyOptBool : Option Bool → Bool
  | none => false
  | some b => b

/-- Python truthiness of the value returned by `get_formated_buckets_list`
(`None`, or a list which is falsy when empty). -/
def pyTruthyOptList (o : Option (List α)) : Bool :=
  match o with
  | none => false
  | some l => !l.isEmpty

/-- Python `repr` of a string (the script only ever shows alias strings via
`str` of a list, which uses `repr` on the elements). -/
def pyStrRepr (s : String) : String :=
  String.singleton (Char.ofNat 39) ++ s ++ String.singleton (Char.ofNat 39)

/-- Python `str` of a list of strings, e.g. `str(['a', 'b'])`. -/
def pyListRepr (xs : List String) : String :=
  "[" ++ String.intercalate ", " (xs.map pyStrRepr) ++ "]"

/-- `get_acc_aliases`: appends each page's `AccountAliases` list to `aliases`
and returns `' '.join([str(alias) for alias in aliases])`; on `ClientError`
returns the string `"Not available"`. -/
def get_acc_aliases (env : MockEnv) : String :=
  match env.aliasPagesResp with
  | Except.error _ => "Not available"
  | Except.ok pages => String.intercalate " " (pages.map pyListRepr)

/-- `get_s3_bucket_region`: returns the raw `LocationConstraint` field of the
`get_bucket_location` response; a `ClientError` propagates to the caller. -/
def get_s3_bucket_region (b : Bucket) : Except ClientError (Option String) :=
  b.locationResp

/-- `is_analytics_enabled`: returns `True` when the key
`AnalyticsConfigurationList` is present in the response, and falls off the
end (returning `None`) otherwise; a `ClientError` propagates. -/
def is_analytics_enabled (b : Bucket) : Except ClientError (Option Bool) :=
  match b.analyticsResp with
  | Except.error e => Except.error e
  | Except.ok resp =>
      match resp with
      | some _ => Except.ok (some true)
      | none => Except.ok none

/-- One CSV row: a Python list whose entries are strings or `None`. -/
abbrev Row := List (Option String)

/-- The loop body of `get_formated_buckets_list`: builds the five-element row
for one bucket; any `ClientError` raised by a sub-call propagates. -/
def buildRow (env : MockEnv) (b : Bucket) : Except ClientError Row :=
  match b.aclResp with
  | Except.error e => Except.error e
  | Except.ok owner =>
      match get_s3_bucket_region b with
      | Except.error e => Except.error e
      | Except.ok region =>
          match is_analytics_enabled b with
          | Except.error e => Except.error e
          | Except.ok flag =>
              Except.ok [some owner,
                         some (get_acc_aliases env),
                         some b.name,
                         region,
                         some (if pyTruthyOptBool flag then "Y" else "N")]

/-- The loop of `get_formated_buckets_list` over the listed buckets; the
first `ClientError` aborts the loop. -/
def buildRows (env : MockEnv) : List Bucket → Except ClientError (List Row)
  | [] => Except.ok []
  | b :: rest =>
      match buildRow env b, buildRows env rest with
      | Except.ok row, Except.ok rows => Except.ok (row :: rows)
      | Except.error e, _ => Except.error e
      | _, Except.error e => Except.error e

/-- `get_formated_buckets_list`: lists the buckets and builds one row per
bucket; on any `ClientError` it prints a message and returns `None`
(modelled as `none`). -/
def get_formated_buckets_list (env : MockEnv) : Option (List Row) :=
  match env.listBucketsResp with
  | Except.error _ => none
  | Except.ok buckets =>
      match buildRows env buckets with
      | Except.error _ => none
      | Except.ok rows => some rows

/-- The header row written by `main`. -/
def headerRow : Row :=
  [some "Account ID", some "Account Aliases", some "S3 Bucket Name",
   some "S3 Bucket Region", some "Analytics"]

namespace Script

/-- `main`: writes `output.csv` (header row then data rows) only when
`get_formated_buckets_list` returned a truthy value; `none` means no file is
written at all. -/
def main (env : MockEnv) : Option (List Row) :=
  match get_formated_buckets_list env with
  | none => none
  | some rows => if rows.isEmpty then none else some (headerRow :: rows)

end Script

/-- A field needs quoting under `csv.QUOTE_MINIMAL` when it contains the
delimiter, the quotechar or a line-terminator character. -/
def csvNeedsQuote (s : String) : Bool :=
  s.data.any (fun c => c == ',' || c == '|' || c == Char.ofNat 13 || c == Char.ofNat 10)

/-- Doubling of the embedded quotechar inside a quoted field. -/
def csvEscapeQuote : List Char → List Char
  | [] => []
  | c :: cs =>
      if c == '|' then '|' :: '|' :: csvEscapeQuote cs
      else c :: csvEscapeQuote cs

/-- Surround a field with the quotechar `|`, doubling embedded quotechars. -/
def csvQuote (s : String) : String :=
  String.mk ('|' :: (csvEscapeQuote s.data ++ ['|']))

/-- Serialization of one field by `csv.writer(..., delimiter=',',
quotechar='|', quoting=csv.QUOTE_MINIMAL)`: Python `None` becomes the empty
field. -/
def serializeField : Option String → String
  | none => ""
  | some s => if csvNeedsQuote s then csvQuote s else s

/-- Serialization of one row: fields joined by the delimiter. -/
def serializeRow (r : Row) : String :=
  String.intercalate "," (r.map serializeField)

/-- The lines of the written CSV file. -/
def csvLines (rows : List Row) : List String :=
  rows.map serializeRow

/-- Number of API calls one `get_acc_aliases` invocation makes: one per
paginator page, and the paginator always issues at least one request. -/
def aliasCallCount (env : MockEnv) : Nat :=
  match env.aliasPagesResp with
  | Except.error _ => 1
  | Except.ok pages => max 1 pages.length

/-- Number of API calls one loop iteration of `get_formated_buckets_list`
makes for a bucket: ACL load, then alias pagination, then bucket location,
then analytics configurations, stopping at the first error. -/
def bucketCallCount (env : MockEnv) (b : Bucket) : Nat :=
  match b.aclResp with
  | Except.error _ => 1
  | Except.ok _ =>
      1 + aliasCallCount env +
        match b.locationResp with
        | Except.error _ => 1
        | Except.ok _ => 1 + 1

/-- API calls made by the bucket loop, which stops at the first error. -/
def loopCallCount (env : MockEnv) : List Bucket → Nat
  | [] => 0
  | b :: rest =>
      match buildRow env b with
      | Except.error _ => bucketCallCount env b
      | Except.ok _ => bucketCallCount env b + loopCallCount env rest

/-- Total API calls of one run: the bucket listing plus the loop. -/
def apiCallCount (env : MockEnv) : Nat :=
  1 + match env.listBucketsResp with
      | Except.error _ => 0
      | Except.ok buckets => loopCallCount env buckets

/-- Number of buckets returned by the bucket listing. -/
def bucketCount (env : MockEnv) : Nat :=
  match env.listBucketsResp with
  | Except.error _ => 0
  | Except.ok buckets => buckets.length

/-- One `add_argument` entry of the CLI: short flag, long flag, required. -/
structure ArgSpec where
  short : String
  long : String
  required : Bool

/-- The four `add_argument` calls of the `__main__` block. -/
def cliArgs : List ArgSpec :=
  [⟨"-r", "--aws_region", true⟩,
   ⟨"-a", "--aws_access_key", true⟩,
   ⟨"-s", "--aws_secret_key", true⟩,
   ⟨"-t", "--aws_security_token", false⟩]

/-- The parsed namespace `opt`: the three required credentials as strings,
the session token optional (`None` when the flag is absent). -/
structure Opt where
  aws_region : String
  aws_access_key : String
  aws_secret_key : String
  aws_security_token : Option String

/-- `parser.parse_args()` over the supplied flag values: fails (argparse
exits) when a required flag is missing, succeeds otherwise, with the session
token defaulting to `None`. -/
def parse_args (given : String → Option String) : Option Opt :=
  match given "aws_region", given "aws_access_key", given "aws_secret_key" with
  | some r, some a, some s => some ⟨r, a, s, given "aws_security_token"⟩
  | _, _, _ => none

/-! Concrete mocked environments used to instantiate the theorems. -/

/-- A bucket whose calls all succeed and whose analytics response lacks the
`AnalyticsConfigurationList` key. -/
def bucketOk : Bucket :=
  ⟨"b1", Except.ok "owner1", Except.ok (some "eu-central-1"), Except.ok none⟩

/-- The row the script builds for `bucketOk` under `envOk`. -/
def rowOkN : Row :=
  [some "owner1", some (pyListRepr ["alias1"]), some "b1",
   some "eu-central-1", some "N"]

/-- An environment listing exactly `bucketOk`, with one alias page. -/
def envOk : MockEnv :=
  ⟨Except.ok [bucketOk], Except.ok [["alias1"]]⟩

/-- A bucket whose analytics response contains the key with an empty list. -/
def bucketKeyEmpty : Bucket :=
  ⟨"b1", Except.ok "owner1", Except.ok (some "eu-central-1"), Except.ok (some [])⟩

/-- An environment listing exactly `bucketKeyEmpty`. -/
def envC2 : MockEnv :=
  ⟨Except.ok [bucketKeyEmpty], Except.ok [["alias1"]]⟩

/-- An environment whose alias listing raises a `ClientError`. -/
def envAliasErr : MockEnv :=
  ⟨Except.ok [bucketOk], Except.error "AccessDenied"⟩

/-- An environment whose bucket listing raises a `ClientError`. -/
def envListErr : MockEnv :=
  ⟨Except.error "NoCreds", Except.ok []⟩

/-- A bucket whose ACL load raises a `ClientError`. -/
def bucketAclErr : Bucket :=
  ⟨"b1", Except.error "AccessDenied", Except.ok none, Except.ok none⟩

/-- An environment whose bucket listing succeeds but a per-bucket call
fails. -/
def envAclErr : MockEnv :=
  ⟨Except.ok [bucketAclErr], Except.ok []⟩

/-- An environment whose bucket listing succeeds with zero buckets. -/
def envEmpty : MockEnv :=
  ⟨Except.ok [], Except.ok []⟩

/-- A command line carrying the three required flags and no session token. -/
def gWitness : String → Option String :=
  fun n =>
    if n == "aws_region" then some "eu-central-1"
    else if n == "aws_access_key" then some "AKIA"
    else if n == "aws_secret_key" then some "SECRET"
    else none

/-! Helper lemmas shared by the claim theorems. -/

/-- A successful loop-body run pins down every mocked response of the bucket
and the exact shape of the produced row. -/
theorem buildRow_shape (env : MockEnv) (b : Bucket) (row : Row)
    (h : buildRow env b = Except.ok row) :
    ∃ owner region flag,
      b.aclResp = Except.ok owner ∧
      b.locationResp = Except.ok region ∧
      is_analytics_enabled b = Except.ok flag ∧
      row = [some owner, some (get_acc_aliases env), some b.name, region,
             some (if pyTruthyOptBool flag then "Y" else "N")] := by
  rcases hacl : b.aclResp with e | owner <;>
    simp only [buildRow, get_s3_bucket_region, hacl] at h
  · exact absurd h (by simp)
  rcases hloc : b.locationResp with e | region <;> simp only [hloc] at h
  · exact absurd h (by simp)
  rcases hana : is_analytics_enabled b with e | flag <;> simp only [hana] at h
  · exact absurd h (by simp)
  refine ⟨owner, region, flag, rfl, rfl, rfl, ?_⟩
  simpa using h.symm

/-- A successful loop run produces one row per bucket, in order, with the
bucket name in the third field. -/
theorem buildRows_ok (env : MockEnv) (bs : List Bucket) :
    ∀ rows, buildRows env bs = Except.ok rows →
      rows.length = bs.length ∧
      rows.map (fun r => r.get? 2) = bs.map (fun b => some (some b.name)) := by
  induction bs with
  | nil =>
      intro rows h
      simp only [buildRows] at h
      obtain rfl : ([] : List Row) = rows := by simpa using h
      simp
  | cons b rest ih =>
      intro rows h
      rcases h1 : buildRow env b with e | row
      · simp only [buildRows, h1] at h
        exact absurd h (by simp)
      rcases h2 : buildRows env rest with f | rs
      · simp only [buildRows, h1, h2] at h
        exact absurd h (by simp)
      simp only [buildRows, h1, h2] at h
      obtain rfl : row :: rs = rows := by simpa using h
      obtain ⟨hlen, hmap⟩ := ih rs h2
      obtain ⟨owner, region, flag, _, _, _, hrow⟩ := buildRow_shape env b row h1
      subst hrow
      exact ⟨by simp [hlen], by simp only [List.map_cons, hmap]; rfl⟩

/-- When the collected list is non-empty, `main` writes the header followed
by exactly those rows. -/
theorem main_writes_of_nonempty (env : MockEnv) (rows : List Row)
    (h : get_formated_buckets_list env = some rows) (hne : rows ≠ []) :
    Script.main env = some (headerRow :: rows) := by
  unfold Script.main
  rw [h]
  rcases rows with _ | ⟨r, rs⟩
  · exact absurd rfl hne
  · simp

/-! Claim theorems. -/

/-- C1: on a successful run, the collected list has exactly one row per
listed bucket, in the same order (the i-th row's bucket-name field is the
i-th bucket's name), and when non-empty these are exactly the data rows
written after the header. -/
theorem rows_match_buckets_in_order (env : MockEnv) (buckets : List Bucket)
    (rows : List Row)
    (h1 : env.listBucketsResp = Except.ok buckets)
    (h2 : get_formated_buckets_list env = some rows) :
    rows.length = buckets.length ∧
    rows.map (fun r => r.get? 2) = buckets.map (fun b => some (some b.name)) ∧
    (rows ≠ [] → Script.main env = some (headerRow :: rows)) := by
  have hg := h2
  unfold get_formated_buckets_list at h2
  simp only [h1] at h2
  rcases hb : buildRows env buckets with e | rs
  · simp only [hb] at h2
    exact absurd h2 (by simp)
  · simp only [hb] at h2
    obtain rfl : rows = rs := by simpa using h2.symm
    obtain ⟨hlen, hmap⟩ := buildRows_ok env buckets rows hb
    exact ⟨hlen, hmap, fun hne => main_writes_of_nonempty env rows hg hne⟩

/-- C1 witness: the theorem instantiated at a one-bucket environment. -/
theorem rows_match_buckets_in_order_witness :
    rowOkN :: [] ≠ [] ∧
    ([rowOkN] : List Row).length = [bucketOk].length ∧
    Script.main envOk = some (headerRow :: [rowOkN]) :=
  ⟨by decide,
   (rows_match_buckets_in_order envOk [bucketOk] [rowOkN] rfl rfl).1,
   (rows_match_buckets_in_order envOk [bucketOk] [rowOkN] rfl rfl).2.2
     (by decide)⟩

/-- C2 counterexample: a mocked analytics response that contains the
`AnalyticsConfigurationList` key with an EMPTY list still yields the flag
`Y`, so the flag is not `Y` iff the list is non-empty. -/
theorem analytics_flag_empty_list_counterexample :
    ¬ (∀ row, buildRow envC2 bucketKeyEmpty = Except.ok row →
        ((row.get? 4 = some (some "Y")) ↔
          (∃ l, bucketKeyEmpty.analyticsResp = Except.ok (some l) ∧ l ≠ []))) := by
  intro hclaim
  have h := hclaim
    [some "owner1", some (pyListRepr ["alias1"]), some "b1",
     some "eu-central-1", some "Y"] rfl
  obtain ⟨l, hl, hne⟩ := h.mp rfl
  have : some ([] : List String) = some l := by
    simpa [bucketKeyEmpty] using hl
  exact hne (by simpa using this.symm)

/-- C2 amended: in a successful row, the analytics flag is `Y` iff the
mocked analytics response contains the `AnalyticsConfigurationList` key
(whatever list it carries), and `N` otherwise. -/
theorem analytics_flag_iff_key_present (env : MockEnv) (b : Bucket)
    (row : Row) (h : buildRow env b = Except.ok row) :
    (row.get? 4 = some (some "Y") ↔ ∃ l, b.analyticsResp = Except.ok (some l)) := by
  obtain ⟨owner, region, flag, hacl, hloc, hana, hrow⟩ := buildRow_shape env b row h
  subst hrow
  rcases hb : b.analyticsResp with e | resp <;>
    simp only [is_analytics_enabled, hb] at hana
  · exact absurd hana (by simp)
  rcases resp with _ | l
  · obtain rfl : flag = none := by simpa using hana.symm
    simp [pyTruthyOptBool, hb]
  · obtain rfl : flag = some true := by simpa using hana.symm
    simp [pyTruthyOptBool, hb]

/-- C2 amended witness: the theorem instantiated at the bucket whose
analytics response carries the key with an empty list. -/
theorem analytics_flag_iff_key_present_witness :
    (([some "owner1", some (pyListRepr ["alias1"]), some "b1",
       some "eu-central-1", some "Y"] : Row).get? 4 = some (some "Y")
      ↔ ∃ l, bucketKeyEmpty.analyticsResp = Except.ok (some l)) :=
  analytics_flag_iff_key_present envC2 bucketKeyEmpty
    [some "owner1", some (pyListRepr ["alias1"]), some "b1",
     some "eu-central-1", some "Y"] rfl

/-- C3 counterexample: a `ClientError` in the alias-listing call is caught
inside `get_acc_aliases`, which returns the truthy string `Not available`,
not a falsy value. -/
theorem alias_error_truthy_counterexample :
    envAliasErr.aliasPagesResp = Except.error "AccessDenied" ∧
    get_acc_aliases envAliasErr = "Not available" ∧
    pyTruthyStr (get_acc_aliases envAliasErr) = true :=
  ⟨rfl, rfl, rfl⟩

/-- C3 amended: errors in the bucket-listing call or in any per-bucket call
make `get_formated_buckets_list` return the falsy `None`, but an error in
the alias-listing call is caught in `get_acc_aliases`, which returns the
truthy string `Not available` without printing. -/
theorem error_handling_amended (env : MockEnv) :
    (∀ e, env.aliasPagesResp = Except.error e →
        get_acc_aliases env = "Not available" ∧
        pyTruthyStr (get_acc_aliases env) = true) ∧
    (∀ e, env.listBucketsResp = Except.error e →
        get_formated_buckets_list env = none) ∧
    (∀ buckets e, env.listBucketsResp = Except.ok buckets →
        buildRows env buckets = Except.error e →
        get_formated_buckets_list env = none) := by
  refine ⟨fun e he => ?_, fun e he => ?_, fun buckets e hb he => ?_⟩
  · constructor <;> simp [get_acc_aliases, he, pyTruthyStr]
  · simp [get_formated_buckets_list, he]
  · simp [get_formated_buckets_list, hb, he]

/-- C3 witness: the amended theorem instantiated at an environment with an
alias error, one with a listing error, and one with a per-bucket error. -/
theorem error_handling_amended_witness :
    get_acc_aliases envAliasErr = "Not available" ∧
    get_formated_buckets_list envListErr = none ∧
    get_formated_buckets_list envAclErr = none :=
  ⟨((error_handling_amended envAliasErr).1 "AccessDenied" rfl).1,
   (error_handling_amended envListErr).2.1 "NoCreds" rfl,
   (error_handling_amended envAclErr).2.2 [bucketAclErr] "AccessDenied" rfl rfl⟩

/-- C4: when `get_formated_buckets_list` returns a falsy value, `main`
writes no file at all. -/
theorem falsy_bucket_list_skips_write (env : MockEnv)
    (h : pyTruthyOptList (get_formated_buckets_list env) = false) :
    Script.main env = none := by
  unfold Script.main
  rcases hg : get_formated_buckets_list env with _ | rows
  · rfl
  · rw [hg] at h
    simp only [pyTruthyOptList, Bool.not_eq_false'] at h
    simp [h]

/-- C4 witness: the theorem instantiated at an environment whose bucket
listing fails. -/
theorem falsy_bucket_list_skips_write_witness :
    pyTruthyOptList (get_formated_buckets_list envListErr) = false ∧
    Script.main envListErr = none :=
  ⟨rfl, falsy_bucket_list_skips_write envListErr rfl⟩

/-- C5: whenever `main` writes a file, its first line is exactly the header
`Account ID,Account Aliases,S3 Bucket Name,S3 Bucket Region,Analytics`. -/
theorem csv_first_line_is_header (env : MockEnv) (out : List Row)
    (h : Script.main env = some out) :
    (csvLines out).head? =
      some "Account ID,Account Aliases,S3 Bucket Name,S3 Bucket Region,Analytics" := by
  unfold Script.main at h
  rcases hg : get_formated_buckets_list env with _ | rows
  · rw [hg] at h
    exact absurd h (by simp)
  · simp only [hg] at h
    rcases he : rows.isEmpty <;> simp only [he] at h
    · obtain rfl : headerRow :: rows = out := by simpa using h
      simp only [csvLines, List.map_cons, List.head?]
      congr 1
    · exact absurd h (by simp)

/-- C5 witness: the theorem instantiated at a one-bucket environment. -/
theorem csv_first_line_is_header_witness :
    (csvLines (headerRow :: [rowOkN])).head? =
      some "Account ID,Account Aliases,S3 Bucket Name,S3 Bucket Region,Analytics" :=
  csv_first_line_is_header envOk (headerRow :: [rowOkN]) rfl

/-- Each loop iteration makes at most three bucket calls plus one alias
pagination. -/
theorem bucketCallCount_le (env : MockEnv) (b : Bucket) :
    bucketCallCount env b ≤ 3 + aliasCallCount env := by
  obtain ⟨n, acl, loc, ana⟩ := b
  rcases acl with e | o <;> rcases loc with f | r <;>
    simp only [bucketCallCount] <;> omega

/-- The bucket loop makes at most a per-bucket bounded number of calls. -/
theorem loopCallCount_le (env : MockEnv) (bs : List Bucket) :
    loopCallCount env bs ≤ bs.length * (3 + aliasCallCount env) := by
  induction bs with
  | nil => simp [loopCallCount]
  | cons b rest ih =>
      have hb := bucketCallCount_le env b
      rcases hr : buildRow env b with e | row <;>
        simp only [loopCallCount, hr, List.length_cons, Nat.succ_mul]
      · linarith [Nat.zero_le (rest.length * (3 + aliasCallCount env))]
      · linarith

/-- C6: for every finite set of mocked responses the run is a total function
and its number of API calls is bounded by a closed formula in the sizes of
the responses: one listing call plus, per listed bucket, three bucket calls
and the alias pagination. -/
theorem api_calls_bounded (env : MockEnv) :
    apiCallCount env ≤ 1 + bucketCount env * (3 + aliasCallCount env) := by
  rcases hl : env.listBucketsResp with e | bs <;>
    simp only [apiCallCount, bucketCount, hl]
  · simp
  · exact Nat.add_le_add_left (loopCallCount_le env bs) 1

/-- C7: every successful row has exactly five fields, in the order owner ID,
alias string, bucket name, bucket region, analytics flag. -/
theorem row_has_five_fields_in_order (env : MockEnv) (b : Bucket) (row : Row)
    (h : buildRow env b = Except.ok row) :
    row.length = 5 ∧
    ∃ owner region flag,
      b.aclResp = Except.ok owner ∧
      b.locationResp = Except.ok region ∧
      is_analytics_enabled b = Except.ok flag ∧
      row = [some owner, some (get_acc_aliases env), some b.name, region,
             some (if pyTruthyOptBool flag then "Y" else "N")] := by
  obtain ⟨owner, region, flag, h1, h2, h3, h4⟩ := buildRow_shape env b row h
  subst h4
  exact ⟨rfl, owner, region, flag, h1, h2, h3, rfl⟩

/-- C7 witness: the theorem instantiated at `bucketOk`. -/
theorem row_has_five_fields_in_order_witness :
    rowOkN.length = 5 :=
  (row_has_five_fields_in_order envOk bucketOk rowOkN rfl).1

/-- C8: the CLI declares exactly four flags, of which region, access key and
secret key are required and the session token is optional: parsing succeeds
whenever the three required flags are supplied, the token defaulting to
`None`, and fails when a required flag is missing. -/
theorem cli_flags_spec :
    cliArgs.length = 4 ∧
    cliArgs.map (fun x => (x.long, x.required)) =
      [("--aws_region", true), ("--aws_access_key", true),
       ("--aws_secret_key", true), ("--aws_security_token", false)] ∧
    (∀ g r a s, g "aws_region" = some r → g "aws_access_key" = some a →
        g "aws_secret_key" = some s →
        parse_args g = some ⟨r, a, s, g "aws_security_token"⟩) ∧
    (∀ g, (g "aws_region" = none ∨ g "aws_access_key" = none ∨
        g "aws_secret_key" = none) → parse_args g = none) := by
  refine ⟨rfl, rfl, fun g r a s h1 h2 h3 => by simp [parse_args, h1, h2, h3],
    fun g h => ?_⟩
  rcases h1 : g "aws_region" with _ | r <;>
    rcases h2 : g "aws_access_key" with _ | a <;>
      rcases h3 : g "aws_secret_key" with _ | s <;>
        simp_all [parse_args]

/-- C8 witness: parsing with the three required flags and no token succeeds
with a `None` token; parsing with no flags fails. -/
theorem cli_flags_spec_witness :
    parse_args gWitness = some ⟨"eu-central-1", "AKIA", "SECRET", none⟩ ∧
    parse_args (fun _ => none) = none :=
  ⟨cli_flags_spec.2.2.1 gWitness "eu-central-1" "AKIA" "SECRET" rfl rfl rfl,
   cli_flags_spec.2.2.2 (fun _ => none) (Or.inl rfl)⟩

/-- C9: when the bucket listing succeeds with zero buckets, the collected
list is the falsy empty list and `main` writes no file, not even the
header. -/
theorem empty_bucket_list_writes_nothing (env : MockEnv)
    (h : env.listBucketsResp = Except.ok []) :
    get_formated_buckets_list env = some [] ∧ Script.main env = none := by
  have hg : get_formated_buckets_list env = some [] := by
    simp [get_formated_buckets_list, h, buildRows]
  exact ⟨hg, by simp [Script.main, hg]⟩

/-- C9 witness: the theorem instantiated at a zero-bucket environment. -/
theorem empty_bucket_list_writes_nothing_witness :
    get_formated_buckets_list envEmpty = some [] ∧
    Script.main envEmpty = none :=
  empty_bucket_list_writes_nothing envEmpty rfl

/-- C10: the region field of a successful row is the raw
`LocationConstraint` value, unnormalized, and the `None` value serializes as
an empty CSV field. -/
theorem region_field_raw_location (env : MockEnv) (b : Bucket) (row : Row)
    (loc : Option String)
    (h : buildRow env b = Except.ok row)
    (hl : b.locationResp = Except.ok loc) :
    row.get? 3 = some loc ∧ serializeField none = "" := by
  obtain ⟨owner, region, flag, h1, h2, h3, h4⟩ := buildRow_shape env b row h
  subst h4
  rw [h2] at hl
  obtain rfl : region = loc := by simpa using hl
  exact ⟨rfl, rfl⟩

/-- C10 witness: the theorem instantiated at `bucketOk`, whose region is
`eu-central-1`. -/
theorem region_field_raw_location_witness :
    rowOkN.get? 3 = some (some "eu-central-1") ∧ serializeField none = "" :=
  region_field_raw_location envOk bucketOk rowOkN (some "eu-central-1") rfl rfl
